import Mathlib

/-!
Shallow embedding of the alert decision and delivery pipeline of the
ml-voip-alert repository (files `app/rules.py`, `app/storage.py`,
`app/notifier.py`, `app/main.py`), with theorems settling the claims
about it.

Modelling conventions:
* Python floats (risk probabilities, thresholds) are modelled as `ℚ`.
* Instants (`datetime.now()` values) are modelled as `ℚ`, measured in
  minutes; `timedelta(minutes=m)` is the rational `m`.
* Environment variables are modelled already parsed: `float(os.getenv(K, D))`
  becomes an `Option ℚ` together with the default applied by `Option.getD`,
  `int(os.getenv(K, D))` an `Option ℤ` likewise.
* The Redis backend is a key-value store whose keys are `"alert:<id>"` and
  `"cooldown:<token>"`; since the two prefixes never collide, it is modelled
  as two finite maps keyed by the raw id/token.  Each individual backend
  call may raise, which is modelled by a `fail` flag per storage-operation
  call (each operation performs exactly one backend call); a raising call is
  an `Except.error`, and the `try/except` blocks of the source are the
  `match`es on that `Except`.
* Storage operations return `Except String _` so that "never raises to the
  caller" is the provable statement that the result is always `Except.ok`.
* Reads return their (unmodified) state next to the value, mirroring that
  the source methods perform no assignment to the store's fields.
-/

namespace MLVoipAlert

/-- One `(feature, impact)` explanation pair, from `app/schemas.py` `Factor`. -/
structure Factor where
  feature : String
  impact : ℚ
deriving DecidableEq, Repr

/-- Alert record, from `app/schemas.py` `AlertData`. -/
structure AlertData where
  alert_id : String
  patient_token : String
  risk : ℚ
  top_factors : List Factor
  timestamp : String
deriving DecidableEq, Repr

/-- Parsed environment configuration used by `rules.py` and `storage.py`:
`RISK_THRESHOLD` and `COOLDOWN_MINUTES`, `none` when the variable is unset. -/
structure EnvConfig where
  risk_threshold : Option ℚ
  cooldown_minutes : Option ℤ

/-- Threshold actually used by `should_alert`:
`float(os.getenv('RISK_THRESHOLD', '0.80'))`. -/
def riskThreshold (cfg : EnvConfig) : ℚ :=
  cfg.risk_threshold.getD (80 / 100)

/-- Window actually used by `in_cooldown`:
`int(os.getenv('COOLDOWN_MINUTES', '30'))`. -/
def cooldownMinutes (cfg : EnvConfig) : ℤ :=
  cfg.cooldown_minutes.getD 30

/-- State of the Redis backend: the `alert:<id>` keys and the
`cooldown:<token>` keys (the prefixes partition the keyspace, so the two
families are two maps keyed by the raw id/token). -/
structure RedisState where
  alerts : String → Option AlertData
  cooldowns : String → Option ℚ

/-- State of `Storage` (`app/storage.py`): `self.redis_client` is active
(`some`) or `None`, plus the two in-process fallback dicts
`self.memory_store` and `self.cooldowns`. -/
structure StorageState where
  redis : Option RedisState
  memory_store : String → Option AlertData
  cooldowns : String → Option ℚ

/-- One backend GET on a `cooldown:` key; `fail` models the call raising. -/
def redis_get_cooldown (r : RedisState) (fail : Bool) (token : String) :
    Except String (Option ℚ) :=
  if fail then Except.error "redis error" else Except.ok (r.cooldowns token)

/-- One backend SET on a `cooldown:` key; `fail` models the call raising. -/
def redis_set_cooldown (r : RedisState) (fail : Bool) (token : String) (t : ℚ) :
    Except String RedisState :=
  if fail then Except.error "redis error"
  else Except.ok { r with cooldowns := fun k => if k = token then some t else r.cooldowns k }

/-- One backend GET on an `alert:` key; `fail` models the call raising. -/
def redis_get_alert (r : RedisState) (fail : Bool) (id : String) :
    Except String (Option AlertData) :=
  if fail then Except.error "redis error" else Except.ok (r.alerts id)

/-- One backend SET on an `alert:` key; `fail` models the call raising.
Serialisation by `model_dump_json` and parsing by `model_validate_json` are
mutually inverse on `AlertData`, so the stored value is kept structured. -/
def redis_set_alert (r : RedisState) (fail : Bool) (a : AlertData) :
    Except String RedisState :=
  if fail then Except.error "redis error"
  else Except.ok { r with alerts := fun k => if k = a.alert_id then some a else r.alerts k }

/-- In-memory branch of `Storage.in_cooldown` (`storage.py` lines 43-47):
`patient_token in self.cooldowns` and `now - last_alert_time < timedelta(minutes=m)`. -/
def fallback_in_cooldown (cfg : EnvConfig) (now : ℚ) (token : String)
    (st : StorageState) : Bool :=
  match st.cooldowns token with
  | some last => decide (now - last < (cooldownMinutes cfg : ℚ))
  | none => false

/-- `Storage.in_cooldown` (`storage.py` lines 26-47).  With an active backend
the GET and the timestamp comparison sit in a `try` whose `except` returns
`False` (it does not consult the fallback dict); without a backend the
in-memory dict is consulted. -/
def in_cooldown (cfg : EnvConfig) (fail : Bool) (now : ℚ) (token : String)
    (st : StorageState) : Except String (Bool × StorageState) :=
  match st.redis with
  | some r =>
    match redis_get_cooldown r fail token with
    | Except.ok (some last) =>
        Except.ok (decide (now - last < (cooldownMinutes cfg : ℚ)), st)
    | Except.ok none => Except.ok (false, st)
    | Except.error _ => Except.ok (false, st)
  | none => Except.ok (fallback_in_cooldown cfg now token st, st)

/-- `Storage.set_cooldown` (`storage.py` lines 49-60): SET the backend key in
a `try` whose `except` writes the in-memory dict instead; without a backend,
write the in-memory dict. -/
def set_cooldown (fail : Bool) (now : ℚ) (token : String)
    (st : StorageState) : Except String StorageState :=
  match st.redis with
  | some r =>
    match redis_set_cooldown r fail token now with
    | Except.ok r2 => Except.ok { st with redis := some r2 }
    | Except.error _ =>
        Except.ok { st with cooldowns := fun k => if k = token then some now else st.cooldowns k }
  | none =>
      Except.ok { st with cooldowns := fun k => if k = token then some now else st.cooldowns k }

/-- `Storage.save_alert` (`storage.py` lines 62-72): SET the backend key in a
`try` whose `except` writes `self.memory_store` instead; without a backend,
write `self.memory_store`. -/
def save_alert (fail : Bool) (a : AlertData) (st : StorageState) :
    Except String StorageState :=
  match st.redis with
  | some r =>
    match redis_set_alert r fail a with
    | Except.ok r2 => Except.ok { st with redis := some r2 }
    | Except.error _ =>
        Except.ok { st with memory_store := fun k => if k = a.alert_id then some a else st.memory_store k }
  | none =>
      Except.ok { st with memory_store := fun k => if k = a.alert_id then some a else st.memory_store k }

/-- `Storage.get_alert` (`storage.py` lines 74-87): GET the backend key in a
`try` whose `except` returns `self.memory_store.get(alert_id)`; without a
backend, read `self.memory_store`. -/
def get_alert (fail : Bool) (id : String) (st : StorageState) :
    Except String (Option AlertData × StorageState) :=
  match st.redis with
  | some r =>
    match redis_get_alert r fail id with
    | Except.ok d => Except.ok (d, st)
    | Except.error _ => Except.ok (st.memory_store id, st)
  | none => Except.ok (st.memory_store id, st)

/-- `should_alert` (`app/rules.py`): `False` below the threshold, otherwise
`False` when the store reports a cooldown, else `True`. -/
def should_alert (cfg : EnvConfig) (fail : Bool) (now : ℚ) (risk : ℚ)
    (patient_token : String) (st : StorageState) : Except String (Bool × StorageState) :=
  let risk_threshold := riskThreshold cfg
  if risk < risk_threshold then Except.ok (false, st)
  else
    match in_cooldown cfg fail now patient_token st with
    | Except.error e => Except.error e
    | Except.ok (true, st1) => Except.ok (false, st1)
    | Except.ok (false, st1) => Except.ok (true, st1)

/-- Python `s[-6:]`-style slice: the last `n` characters, the whole string
when it is shorter than `n`. -/
def pyLastN (s : String) (n : Nat) : String :=
  String.mk (s.data.drop (s.data.length - n))

/-- Character-list prefix test. -/
def listIsPre : List Char → List Char → Bool
  | [], _ => true
  | _ :: _, [] => false
  | a :: as, b :: bs => a == b && listIsPre as bs

/-- Python `s.startswith(pat)`. -/
def strStartsWith (s pat : String) : Bool :=
  listIsPre pat.data s.data

/-- Character-list substring test: `pat` occurs at some position of `l`. -/
def listContains : List Char → List Char → Bool
  | [], pat => pat.isEmpty
  | a :: tl, pat => listIsPre pat (a :: tl) || listContains tl pat

/-- Python `pat in s`. -/
def strContains (s pat : String) : Bool :=
  listContains s.data pat.data

/-- Parsed environment configuration of `VoIPNotifier.__init__`
(`notifier.py` lines 11-16); a variable that is unset is `none`. -/
structure NotifierConfig where
  asterisk_host : Option String
  asterisk_port : ℤ
  asterisk_user : Option String
  asterisk_secret : Option String
  alert_number : Option String

/-- Python truthiness of an optional string (`all([...])` treats `None` and
`""` as false). -/
def truthy : Option String → Bool
  | none => false
  | some s => !s.isEmpty

/-- `self.ami_available` (`notifier.py` lines 19-24): all of host, user,
secret and destination number are truthy. -/
def ami_available (c : NotifierConfig) : Bool :=
  truthy c.asterisk_host && truthy c.asterisk_user &&
    truthy c.asterisk_secret && truthy c.alert_number

/-- Behaviour of the AMI endpoint during one `notify_voice` call: whether the
TCP connect succeeds, the three response frames, and whether each frame read
raises (connection reset or timeout). -/
structure AmiOracle where
  connect_ok : Bool
  banner : String
  banner_read_ok : Bool
  login_resp : String
  login_read_ok : Bool
  originate_resp : String
  originate_read_ok : Bool

/-- Outcome of one `notify_voice` call: the returned boolean, how many TCP
connection attempts were made, and the composed announcement text. -/
structure NotifyResult where
  ok : Bool
  conn_attempts : ℕ
  message : String
deriving DecidableEq, Repr

/-- Announcement text composed on the protocol path (`notifier.py` line 47):
the f-string over `short_id = alert.alert_id[-6:]`. -/
def proto_message (alert : AlertData) : String :=
  "High-risk cardiac score for case " ++ pyLastN alert.alert_id 6 ++
    ". Check your secure portal."

/-- Announcement text composed on the simulated path (`notifier.py` line 116):
the f-string over `short_id = alert.alert_id[-6:]`. -/
def sim_message (alert : AlertData) : String :=
  "High-risk cardiac score for case " ++ pyLastN alert.alert_id 6 ++
    ". Check your secure portal."

/-- `VoIPNotifier._simulate_voice_alert` (`notifier.py` lines 106-141): logs
the call, optionally plays TTS on macOS (both without observable effect
here), makes no network connection and returns `True`. -/
def simulate_voice_alert (alert : AlertData) : NotifyResult :=
  { ok := true, conn_attempts := 0, message := sim_message alert }

/-- `VoIPNotifier.notify_voice` (`notifier.py` lines 27-92).  Incomplete
configuration routes to the simulated path.  On the protocol path the whole
body sits in a `try` whose `except` returns `False`, so every raising step
(failed connect, failed read, bad banner, failed login) yields `False`; an
Originate response without the `Success` marker returns `False` directly;
only a `Success` Originate response returns `True`. -/
def notify_voice (c : NotifierConfig) (o : AmiOracle) (alert : AlertData) :
    NotifyResult :=
  if !ami_available c then
    simulate_voice_alert alert
  else
    let message := proto_message alert
    if !o.connect_ok then
      { ok := false, conn_attempts := 1, message := message }
    else if !o.banner_read_ok then
      { ok := false, conn_attempts := 1, message := message }
    else if !strStartsWith o.banner "Asterisk" then
      { ok := false, conn_attempts := 1, message := message }
    else if !o.login_read_ok then
      { ok := false, conn_attempts := 1, message := message }
    else if !strContains o.login_resp "Success" then
      { ok := false, conn_attempts := 1, message := message }
    else if !o.originate_read_ok then
      { ok := false, conn_attempts := 1, message := message }
    else if strContains o.originate_resp "Success" then
      { ok := true, conn_attempts := 1, message := message }
    else
      { ok := false, conn_attempts := 1, message := message }

/-- Events of the approved branch of `score_patient`, in the order the source
statements execute them. -/
inductive PipeEvent where
  | evSaveAlert (a : AlertData)
  | evSetCooldown (token : String)
  | evNotify (a : AlertData)
deriving DecidableEq, Repr

/-- Per-call backend failure flags for the three storage calls a single
`score_patient` request can make. -/
structure PipelineFails where
  ic : Bool
  sa : Bool
  sc : Bool

/-- Decision-persist-dispatch phase of `score_patient` (`main.py` lines
74-99): `should_alert`, then — only when approved — build the `AlertData`,
`save_alert`, `set_cooldown`, `notify_voice` (whose result is discarded by
the source).  Returns the `alerted` flag, the record (when built), the final
store state and the trace of pipeline events in execution order. -/
def score_alert_phase (cfg : EnvConfig) (nc : NotifierConfig) (o : AmiOracle)
    (fl : PipelineFails) (now : ℚ) (risk : ℚ) (token : String)
    (alert_id : String) (factors : List Factor) (timestamp : String)
    (st : StorageState) :
    Except String (Bool × Option AlertData × StorageState × List PipeEvent) :=
  match should_alert cfg fl.ic now risk token st with
  | Except.error e => Except.error e
  | Except.ok (alerted, st0) =>
    if alerted then
      let alert : AlertData :=
        { alert_id := alert_id, patient_token := token, risk := risk,
          top_factors := factors, timestamp := timestamp }
      match save_alert fl.sa alert st0 with
      | Except.error e => Except.error e
      | Except.ok st1 =>
        match set_cooldown fl.sc now token st1 with
        | Except.error e => Except.error e
        | Except.ok st2 =>
          let _nres := notify_voice nc o alert
          Except.ok (true, some alert, st2,
            [PipeEvent.evSaveAlert alert, PipeEvent.evSetCooldown token,
             PipeEvent.evNotify alert])
    else
      Except.ok (false, none, st0, [])

/-! ### Concrete fixtures used by witnesses and counterexamples -/

/-- Configuration with both environment variables unset (all defaults). -/
def cfgDefault : EnvConfig := { risk_threshold := none, cooldown_minutes := none }

/-- Empty Redis backend state. -/
def rsEmpty : RedisState := { alerts := fun _ => none, cooldowns := fun _ => none }

/-- Store constructed with no durable backend and nothing written yet. -/
def stEmpty : StorageState :=
  { redis := none, memory_store := fun _ => none, cooldowns := fun _ => none }

/-- Store whose durable backend is active and empty, but whose in-process
fallback dict already holds a cooldown entry for `"p"` at instant 0 (as left
by an earlier degraded `set_cooldown`). -/
def stC2 : StorageState :=
  { redis := some rsEmpty, memory_store := fun _ => none,
    cooldowns := fun k => if k = "p" then some 0 else none }

/-- Fallback-mode store after `set_cooldown` for `"p"` at instant 0. -/
def stC7 : StorageState :=
  { redis := none, memory_store := fun _ => none,
    cooldowns := fun k => if k = "p" then some (0 : ℚ) else none }

/-- Sample alert record. -/
def alertW : AlertData :=
  { alert_id := "alrt_0001", patient_token := "p", risk := 9/10,
    top_factors := [{ feature := "age", impact := 1/2 }],
    timestamp := "2026-01-01T00:00:00" }

/-- Alert record built by the sample pipeline run. -/
def alertC6 : AlertData :=
  { alert_id := "alrt_x", patient_token := "p", risk := 9/10,
    top_factors := [], timestamp := "ts" }

/-- Store state after the sample pipeline run persisted `alertC6` and the
cooldown for `"p"`. -/
def stC6 : StorageState :=
  { redis := none,
    memory_store := fun k => if k = "alrt_x" then some alertC6 else none,
    cooldowns := fun k => if k = "p" then some (0 : ℚ) else none }

/-- Alert record for patient `"patientA"`. -/
def aC5 : AlertData :=
  { alert_id := "alrt_abc123", patient_token := "patientA", risk := 9/10,
    top_factors := [], timestamp := "ts" }

/-- Alert record identical to `aC5` except for its `patient_token`. -/
def bC5 : AlertData :=
  { alert_id := "alrt_abc123", patient_token := "patientB", risk := 9/10,
    top_factors := [], timestamp := "ts" }

/-- Notifier configuration with every variable unset (simulated dispatch). -/
def ncNone : NotifierConfig :=
  { asterisk_host := none, asterisk_port := 5038, asterisk_user := none,
    asterisk_secret := none, alert_number := none }

/-- Complete notifier configuration (protocol-capable dispatch). -/
def ncFull : NotifierConfig :=
  { asterisk_host := some "pbx.example", asterisk_port := 5038,
    asterisk_user := some "admin", asterisk_secret := some "s3cret",
    alert_number := some "1000" }

/-- Endpoint behaving correctly at every step. -/
def oDummy : AmiOracle :=
  { connect_ok := true, banner := "Asterisk Call Manager/1.1",
    banner_read_ok := true, login_resp := "Response: Success\r\n\r\n",
    login_read_ok := true, originate_resp := "Response: Success\r\n\r\n",
    originate_read_ok := true }

/-- Endpoint whose banner and login succeed but whose Originate response
carries no `Success` marker. -/
def oC8 : AmiOracle :=
  { connect_ok := true, banner := "Asterisk Call Manager/1.1",
    banner_read_ok := true, login_resp := "Response: Success\r\n\r\n",
    login_read_ok := true,
    originate_resp := "Response: Error\r\nMessage: Originate failed\r\n\r\n",
    originate_read_ok := true }

/-! ### Helper lemmas -/

theorem in_cooldown_ok (cfg : EnvConfig) (fail : Bool) (now : ℚ) (token : String)
    (st : StorageState) : ∃ b, in_cooldown cfg fail now token st = Except.ok (b, st) := by
  obtain ⟨rd, ms, cd⟩ := st
  cases rd with
  | none => exact ⟨_, rfl⟩
  | some rs =>
    cases fail with
    | true => exact ⟨_, rfl⟩
    | false =>
      cases h : rs.cooldowns token with
      | none => exact ⟨false, by simp [in_cooldown, redis_get_cooldown, h]⟩
      | some last =>
        exact ⟨decide (now - last < (cooldownMinutes cfg : ℚ)),
          by simp [in_cooldown, redis_get_cooldown, h]⟩

theorem set_cooldown_ok (fail : Bool) (now : ℚ) (token : String)
    (st : StorageState) : ∃ st1, set_cooldown fail now token st = Except.ok st1 := by
  obtain ⟨rd, ms, cd⟩ := st
  cases rd <;> cases fail <;> exact ⟨_, rfl⟩

theorem save_alert_ok (fail : Bool) (a : AlertData) (st : StorageState) :
    ∃ st1, save_alert fail a st = Except.ok st1 := by
  obtain ⟨rd, ms, cd⟩ := st
  cases rd <;> cases fail <;> exact ⟨_, rfl⟩

theorem get_alert_ok (fail : Bool) (id : String) (st : StorageState) :
    ∃ v, get_alert fail id st = Except.ok (v, st) := by
  obtain ⟨rd, ms, cd⟩ := st
  cases rd <;> cases fail <;> exact ⟨_, rfl⟩

theorem should_alert_ok (cfg : EnvConfig) (fail : Bool) (now risk : ℚ)
    (token : String) (st : StorageState) :
    ∃ b, should_alert cfg fail now risk token st = Except.ok (b, st) := by
  unfold should_alert
  obtain ⟨b, hb⟩ := in_cooldown_ok cfg fail now token st
  by_cases h : risk < riskThreshold cfg
  · exact ⟨false, by rw [if_pos h]⟩
  · cases b with
    | true => exact ⟨false, by rw [if_neg h, hb]⟩
    | false => exact ⟨true, by rw [if_neg h, hb]⟩

/-! ### Claim theorems -/

/-- C1: `should_alert` returns `false` when `risk` is strictly below the
configured threshold, returns `false` when the store reports the token in
cooldown, and returns `true` otherwise; in particular `risk` equal to the
threshold with no active cooldown yields `true`, and the threshold defaults
to `0.80` when `RISK_THRESHOLD` is unset. -/
theorem C1_decision_gate (cfg : EnvConfig) (fail : Bool) (now risk : ℚ)
    (token : String) (st : StorageState) :
    (risk < riskThreshold cfg →
      should_alert cfg fail now risk token st = Except.ok (false, st)) ∧
    (riskThreshold cfg ≤ risk →
      in_cooldown cfg fail now token st = Except.ok (true, st) →
      should_alert cfg fail now risk token st = Except.ok (false, st)) ∧
    (riskThreshold cfg ≤ risk →
      in_cooldown cfg fail now token st = Except.ok (false, st) →
      should_alert cfg fail now risk token st = Except.ok (true, st)) ∧
    riskThreshold { risk_threshold := none, cooldown_minutes := cfg.cooldown_minutes }
      = 80 / 100 := by
  refine ⟨?_, ?_, ?_, rfl⟩
  · intro h
    unfold should_alert
    rw [if_pos h]
  · intro h hic
    unfold should_alert
    rw [if_neg (not_lt.mpr h), hic]
  · intro h hic
    unfold should_alert
    rw [if_neg (not_lt.mpr h), hic]

theorem C1_decision_gate_witness :
    should_alert cfgDefault false 0 (1/2) "p" stEmpty = Except.ok (false, stEmpty) ∧
    should_alert cfgDefault false 0 (80/100) "p" stEmpty = Except.ok (true, stEmpty) :=
  ⟨(C1_decision_gate cfgDefault false 0 (1/2) "p" stEmpty).1
      (by norm_num [riskThreshold, cfgDefault]),
   (C1_decision_gate cfgDefault false 0 (80/100) "p" stEmpty).2.2.1
      (by norm_num [riskThreshold, cfgDefault]) rfl⟩

/-- C2 counterexample: with the durable backend active and the individual
read failing, the in-process fallback map holds a live cooldown entry for
`"p"` (written earlier by a degraded write), yet `in_cooldown` returns
`false` — the failing read does not consult the fallback map, contradicting
the claim that both read operations do. -/
theorem C2_read_fallback_cex :
    fallback_in_cooldown cfgDefault 5 "p" stC2 = true ∧
    in_cooldown cfgDefault true 5 "p" stC2 = Except.ok (false, stC2) := by
  constructor
  · simp only [fallback_in_cooldown, stC2, cooldownMinutes, cfgDefault, Option.getD,
      if_pos rfl, decide_eq_true_eq]
    norm_num
  · rfl

/-- C2 (amended): with the durable backend active at construction and the
individual backend read failing, `get_alert` consults the in-process
fallback map and returns the value found there, while `in_cooldown` returns
`false` without consulting the fallback map. -/
theorem C2_read_fallback_amended (cfg : EnvConfig) (now : ℚ) (token id : String)
    (st : StorageState) (r : RedisState) (h : st.redis = some r) :
    get_alert true id st = Except.ok (st.memory_store id, st) ∧
    in_cooldown cfg true now token st = Except.ok (false, st) := by
  unfold get_alert in_cooldown
  rw [h]
  exact ⟨rfl, rfl⟩

theorem C2_read_fallback_amended_witness :
    get_alert true "a1" stC2 = Except.ok (stC2.memory_store "a1", stC2) ∧
    in_cooldown cfgDefault true 5 "p" stC2 = Except.ok (false, stC2) :=
  C2_read_fallback_amended cfgDefault 5 "p" "a1" stC2 rsEmpty rfl

/-- C3: `save_alert` followed by `get_alert` on the same alert id returns the
record just saved, equal in all fields; this holds when the store runs with
no durable backend (the fallback path, in particular when the backend was
unreachable at construction), and with an active backend whose two calls
either both succeed or both fail. -/
theorem C3_save_get_roundtrip (r : AlertData) (st : StorageState) (f1 f2 : Bool)
    (h : st.redis = none ∨ f1 = f2) :
    ∃ st1, save_alert f1 r st = Except.ok st1 ∧
      get_alert f2 r.alert_id st1 = Except.ok (some r, st1) := by
  obtain ⟨rd, ms, cd⟩ := st
  rcases h with h | h
  · simp only at h
    subst h
    exact ⟨_, rfl, by simp [get_alert, save_alert]⟩
  · subst h
    cases rd with
    | none => exact ⟨_, rfl, by simp [get_alert, save_alert]⟩
    | some rs =>
      cases f1 with
      | false =>
        exact ⟨_, rfl, by simp [get_alert, save_alert, redis_get_alert, redis_set_alert]⟩
      | true =>
        exact ⟨_, rfl, by simp [get_alert, save_alert, redis_get_alert, redis_set_alert]⟩

theorem C3_save_get_roundtrip_witness :
    ∃ st1, save_alert false alertW stEmpty = Except.ok st1 ∧
      get_alert false alertW.alert_id st1 = Except.ok (some alertW, st1) :=
  C3_save_get_roundtrip alertW stEmpty false false (Or.inl rfl)

/-- C4: each of the four public store operations always returns a value
(`Except.ok`) — never an error — whatever the backend state (active, absent)
and whether or not the individual backend call fails. -/
theorem C4_store_never_raises (cfg : EnvConfig) (fail : Bool) (now t : ℚ)
    (token id : String) (r : AlertData) (st : StorageState) :
    (∃ v, in_cooldown cfg fail now token st = Except.ok v) ∧
    (∃ st1, set_cooldown fail t token st = Except.ok st1) ∧
    (∃ st1, save_alert fail r st = Except.ok st1) ∧
    (∃ v, get_alert fail id st = Except.ok v) := by
  obtain ⟨b, hb⟩ := in_cooldown_ok cfg fail now token st
  obtain ⟨s1, h1⟩ := set_cooldown_ok fail t token st
  obtain ⟨s2, h2⟩ := save_alert_ok fail r st
  obtain ⟨v, hv⟩ := get_alert_ok fail id st
  exact ⟨⟨_, hb⟩, ⟨_, h1⟩, ⟨_, h2⟩, ⟨_, hv⟩⟩

theorem notify_voice_message (c : NotifierConfig) (o : AmiOracle) (a : AlertData) :
    (notify_voice c o a).message =
      if ami_available c then proto_message a else sim_message a := by
  unfold notify_voice simulate_voice_alert
  cases h : ami_available c <;> simp [h, apply_ite NotifyResult.message]

theorem in_cooldown_after_set (cfg : EnvConfig) (t now : ℚ) (token : String)
    (st st1 : StorageState) (hset : set_cooldown false t token st = Except.ok st1) :
    in_cooldown cfg false now token st1 =
      Except.ok (decide (now - t < (cooldownMinutes cfg : ℚ)), st1) := by
  obtain ⟨rd, ms, cd⟩ := st
  cases rd with
  | none =>
    simp only [set_cooldown, Except.ok.injEq] at hset
    subst hset
    simp [in_cooldown, fallback_in_cooldown]
  | some rs =>
    simp only [set_cooldown, redis_set_cooldown, Bool.false_eq_true, if_false,
      Except.ok.injEq] at hset
    subst hset
    simp [in_cooldown, redis_get_cooldown]

/-- C5: the announced text of a voice alert is exactly the fixed sentence
over the last 6 characters of the alert id plus the secure-portal
instruction, identical on the protocol and the simulated path, and two
dispatches whose records differ only in `patient_token` produce identical
message text for any configuration and endpoint behaviour. -/
theorem C5_message_phi_free (a b : AlertData) (nc : NotifierConfig)
    (o o2 : AmiOracle) (hid : a.alert_id = b.alert_id) (_hr : a.risk = b.risk)
    (_hf : a.top_factors = b.top_factors) (_hts : a.timestamp = b.timestamp) :
    proto_message a = "High-risk cardiac score for case " ++ pyLastN a.alert_id 6
        ++ ". Check your secure portal." ∧
    sim_message a = proto_message a ∧
    (notify_voice nc o a).message = (notify_voice nc o2 b).message := by
  refine ⟨rfl, rfl, ?_⟩
  rw [notify_voice_message, notify_voice_message]
  unfold proto_message sim_message
  rw [hid]

theorem C5_message_phi_free_witness :
    (notify_voice ncFull oDummy aC5).message = (notify_voice ncFull oDummy bC5).message ∧
    (notify_voice ncNone oDummy aC5).message = (notify_voice ncNone oDummy bC5).message :=
  ⟨(C5_message_phi_free aC5 bC5 ncFull oDummy oDummy rfl rfl rfl rfl).2.2,
   (C5_message_phi_free aC5 bC5 ncNone oDummy oDummy rfl rfl rfl rfl).2.2⟩

/-- C7: once `set_cooldown` has run for a token at instant `t` (with no later
`set_cooldown` for it), `should_alert` with risk at or above the threshold
returns `false` at every instant strictly less than the cooldown window
after `t` and `true` at every instant at or past the window; the window
defaults to 30 minutes when `COOLDOWN_MINUTES` is unset. -/
theorem C7_cooldown_window (cfg : EnvConfig) (t now risk : ℚ) (token : String)
    (st st1 : StorageState) (hrisk : riskThreshold cfg ≤ risk)
    (hset : set_cooldown false t token st = Except.ok st1) :
    (now - t < (cooldownMinutes cfg : ℚ) →
      should_alert cfg false now risk token st1 = Except.ok (false, st1)) ∧
    ((cooldownMinutes cfg : ℚ) ≤ now - t →
      should_alert cfg false now risk token st1 = Except.ok (true, st1)) ∧
    cooldownMinutes { risk_threshold := cfg.risk_threshold, cooldown_minutes := none }
      = 30 := by
  have hic := in_cooldown_after_set cfg t now token st st1 hset
  refine ⟨?_, ?_, rfl⟩
  · intro hlt
    unfold should_alert
    rw [if_neg (not_lt.mpr hrisk), hic, decide_eq_true hlt]
  · intro hge
    unfold should_alert
    rw [if_neg (not_lt.mpr hrisk), hic, decide_eq_false (not_lt.mpr hge)]

theorem C7_cooldown_window_witness :
    should_alert cfgDefault false 10 (9/10) "p" stC7 = Except.ok (false, stC7) ∧
    should_alert cfgDefault false 40 (9/10) "p" stC7 = Except.ok (true, stC7) :=
  ⟨(C7_cooldown_window cfgDefault 0 10 (9/10) "p" stEmpty stC7
      (by norm_num [riskThreshold, cfgDefault]) rfl).1
      (by norm_num [cooldownMinutes, cfgDefault]),
   (C7_cooldown_window cfgDefault 0 40 (9/10) "p" stEmpty stC7
      (by norm_num [riskThreshold, cfgDefault]) rfl).2.1
      (by norm_num [cooldownMinutes, cfgDefault])⟩

/-- C8: with complete configuration and an endpoint whose banner and login
succeed but whose Originate response lacks the `Success` marker,
`notify_voice` returns `false` (as a value, never an error), and the store
state produced by the scoring pipeline is independent of the endpoint's
behaviour — the dispatch attempt leaves every persisted alert record and
cooldown entry unchanged. -/
theorem C8_originate_no_success (nc : NotifierConfig) (o : AmiOracle)
    (alert : AlertData) (hami : ami_available nc = true)
    (hconn : o.connect_ok = true) (hbr : o.banner_read_ok = true)
    (hbanner : strStartsWith o.banner "Asterisk" = true)
    (hlr : o.login_read_ok = true)
    (hlogin : strContains o.login_resp "Success" = true)
    (hor : o.originate_read_ok = true)
    (horig : strContains o.originate_resp "Success" = false) :
    notify_voice nc o alert =
      { ok := false, conn_attempts := 1, message := proto_message alert } ∧
    ∀ (cfg : EnvConfig) (fl : PipelineFails) (now risk : ℚ)
      (token alert_id : String) (factors : List Factor) (timestamp : String)
      (st : StorageState) (o2 : AmiOracle),
      score_alert_phase cfg nc o fl now risk token alert_id factors timestamp st =
        score_alert_phase cfg nc o2 fl now risk token alert_id factors timestamp st := by
  constructor
  · unfold notify_voice
    rw [hami]
    simp [hconn, hbr, hbanner, hlr, hlogin, hor, horig]
  · intro cfg fl now risk token alert_id factors timestamp st o2
    rfl

theorem C8_originate_no_success_witness :
    notify_voice ncFull oC8 alertW =
      { ok := false, conn_attempts := 1, message := proto_message alertW } :=
  (C8_originate_no_success ncFull oC8 alertW rfl rfl rfl (by decide) rfl
    (by decide) rfl (by decide)).1

/-- C9: when any of the protocol host, username, secret or destination
number is absent from configuration, every `notify_voice` call takes the
simulated path: zero network connection attempts, no error, result `true`. -/
theorem C9_incomplete_config_simulated (nc : NotifierConfig) (o : AmiOracle)
    (alert : AlertData)
    (h : nc.asterisk_host = none ∨ nc.asterisk_user = none ∨
         nc.asterisk_secret = none ∨ nc.alert_number = none) :
    notify_voice nc o alert =
      { ok := true, conn_attempts := 0, message := sim_message alert } := by
  have hami : ami_available nc = false := by
    rcases h with h | h | h | h <;> simp [ami_available, truthy, h]
  unfold notify_voice
  rw [hami]
  rfl

theorem C9_incomplete_config_simulated_witness :
    notify_voice ncNone oDummy alertW =
      { ok := true, conn_attempts := 0, message := sim_message alertW } :=
  C9_incomplete_config_simulated ncNone oDummy alertW (Or.inl rfl)

/-- C10: each store operation touches at most the entry of its own key:
`save_alert` leaves both cooldown maps and every other alert key unchanged
(in whichever of the backend or the fallback map it writes), `set_cooldown`
leaves both alert maps and every other token's cooldown entry unchanged, and
the two read operations return the store state unmodified. -/
theorem C10_single_key_frame (cfg : EnvConfig) (fail : Bool) (now t : ℚ)
    (token id : String) (r : AlertData) (st : StorageState) :
    (∀ st1, save_alert fail r st = Except.ok st1 →
      st1.cooldowns = st.cooldowns ∧
      (∀ k, k ≠ r.alert_id → st1.memory_store k = st.memory_store k) ∧
      (st.redis = none → st1.redis = none) ∧
      (∀ rs, st.redis = some rs → ∃ rs2, st1.redis = some rs2 ∧
        rs2.cooldowns = rs.cooldowns ∧
        (∀ k, k ≠ r.alert_id → rs2.alerts k = rs.alerts k))) ∧
    (∀ st1, set_cooldown fail t token st = Except.ok st1 →
      st1.memory_store = st.memory_store ∧
      (∀ k, k ≠ token → st1.cooldowns k = st.cooldowns k) ∧
      (st.redis = none → st1.redis = none) ∧
      (∀ rs, st.redis = some rs → ∃ rs2, st1.redis = some rs2 ∧
        rs2.alerts = rs.alerts ∧
        (∀ k, k ≠ token → rs2.cooldowns k = rs.cooldowns k))) ∧
    (∀ v st1, in_cooldown cfg fail now token st = Except.ok (v, st1) → st1 = st) ∧
    (∀ v st1, get_alert fail id st = Except.ok (v, st1) → st1 = st) := by
  obtain ⟨rd, ms, cd⟩ := st
  refine ⟨?_, ?_, ?_, ?_⟩
  · intro st1 h
    cases rd with
    | none =>
      simp only [save_alert, Except.ok.injEq] at h
      subst h
      refine ⟨rfl, ?_, fun _ => rfl, ?_⟩
      · intro k hk
        simp [if_neg hk]
      · intro rs hrs
        exact absurd hrs (by simp)
    | some rs =>
      cases fail with
      | false =>
        simp only [save_alert, redis_set_alert, Bool.false_eq_true, if_false,
          Except.ok.injEq] at h
        subst h
        refine ⟨rfl, fun k _ => rfl, by simp, ?_⟩
        intro rs0 hrs
        simp only [Option.some.injEq] at hrs
        subst hrs
        refine ⟨_, rfl, rfl, ?_⟩
        intro k hk
        simp [if_neg hk]
      | true =>
        simp only [save_alert, redis_set_alert, if_true, Except.ok.injEq] at h
        subst h
        refine ⟨rfl, ?_, by simp, ?_⟩
        · intro k hk
          simp [if_neg hk]
        · intro rs0 hrs
          simp only [Option.some.injEq] at hrs
          subst hrs
          exact ⟨_, rfl, rfl, fun k _ => rfl⟩
  · intro st1 h
    cases rd with
    | none =>
      simp only [set_cooldown, Except.ok.injEq] at h
      subst h
      refine ⟨rfl, ?_, fun _ => rfl, ?_⟩
      · intro k hk
        simp [if_neg hk]
      · intro rs hrs
        exact absurd hrs (by simp)
    | some rs =>
      cases fail with
      | false =>
        simp only [set_cooldown, redis_set_cooldown, Bool.false_eq_true, if_false,
          Except.ok.injEq] at h
        subst h
        refine ⟨rfl, fun k _ => rfl, by simp, ?_⟩
        intro rs0 hrs
        simp only [Option.some.injEq] at hrs
        subst hrs
        refine ⟨_, rfl, rfl, ?_⟩
        intro k hk
        simp [if_neg hk]
      | true =>
        simp only [set_cooldown, redis_set_cooldown, if_true, Except.ok.injEq] at h
        subst h
        refine ⟨rfl, ?_, by simp, ?_⟩
        · intro k hk
          simp [if_neg hk]
        · intro rs0 hrs
          simp only [Option.some.injEq] at hrs
          subst hrs
          exact ⟨_, rfl, rfl, fun k _ => rfl⟩
  · intro v st1 h
    obtain ⟨b, hb⟩ := in_cooldown_ok cfg fail now token ⟨rd, ms, cd⟩
    rw [hb] at h
    simp only [Except.ok.injEq, Prod.mk.injEq] at h
    exact h.2.symm
  · intro v st1 h
    obtain ⟨w, hw⟩ := get_alert_ok fail id ⟨rd, ms, cd⟩
    rw [hw] at h
    simp only [Except.ok.injEq, Prod.mk.injEq] at h
    exact h.2.symm

theorem C10_single_key_frame_witness :
    stC7.memory_store = stEmpty.memory_store ∧
    stC7.cooldowns "q" = stEmpty.cooldowns "q" :=
  have h := (C10_single_key_frame cfgDefault false 0 0 "p" "a" alertW stEmpty).2.1
    stC7 rfl
  ⟨h.1, h.2.1 "q" (by decide)⟩

/-- C6: in the scoring pipeline's decision-persist-dispatch phase, an
approved decision produces exactly the event trace
`save_alert`, then `set_cooldown`, then `notify_voice` — the alert record is
persisted strictly before the cooldown entry is set, and both store writes
precede the dispatch call — while a suppressed decision produces an empty
trace (none of the three steps runs). -/
theorem C6_pipeline_order (cfg : EnvConfig) (nc : NotifierConfig) (o : AmiOracle)
    (fl : PipelineFails) (now risk : ℚ) (token alert_id : String)
    (factors : List Factor) (timestamp : String) (st : StorageState)
    (alerted : Bool) (rec : Option AlertData) (st1 : StorageState)
    (tr : List PipeEvent)
    (h : score_alert_phase cfg nc o fl now risk token alert_id factors timestamp st
          = Except.ok (alerted, rec, st1, tr)) :
    (alerted = true →
      tr = [PipeEvent.evSaveAlert
              { alert_id := alert_id, patient_token := token, risk := risk,
                top_factors := factors, timestamp := timestamp },
            PipeEvent.evSetCooldown token,
            PipeEvent.evNotify
              { alert_id := alert_id, patient_token := token, risk := risk,
                top_factors := factors, timestamp := timestamp }]) ∧
    (alerted = false → tr = []) := by
  obtain ⟨b, hb⟩ := should_alert_ok cfg fl.ic now risk token st
  unfold score_alert_phase at h
  rw [hb] at h
  cases b with
  | false =>
    simp only [Bool.false_eq_true, if_false, Except.ok.injEq, Prod.mk.injEq] at h
    obtain ⟨ha, -, -, ht⟩ := h
    subst ha
    subst ht
    exact ⟨fun hx => absurd hx (by simp), fun _ => rfl⟩
  | true =>
    obtain ⟨sA, hA⟩ := save_alert_ok fl.sa
      { alert_id := alert_id, patient_token := token, risk := risk,
        top_factors := factors, timestamp := timestamp } st
    obtain ⟨sC, hC⟩ := set_cooldown_ok fl.sc now token sA
    simp only [if_true] at h
    rw [hA] at h
    simp only [] at h
    rw [hC] at h
    simp only [Except.ok.injEq, Prod.mk.injEq] at h
    obtain ⟨ha, -, -, ht⟩ := h
    subst ha
    subst ht
    exact ⟨fun _ => rfl, fun hx => absurd hx (by simp)⟩

theorem score_phase_sample :
    score_alert_phase cfgDefault ncNone oDummy ⟨false, false, false⟩ 0 (9/10) "p"
      "alrt_x" [] "ts" stEmpty =
    Except.ok (true, some alertC6, stC6,
      [PipeEvent.evSaveAlert alertC6, PipeEvent.evSetCooldown "p",
       PipeEvent.evNotify alertC6]) := by
  have hth : ¬((9/10 : ℚ) < riskThreshold cfgDefault) := by
    norm_num [riskThreshold, cfgDefault]
  simp only [score_alert_phase, should_alert, hth, if_false]
  rfl

theorem C6_pipeline_order_witness :
    [PipeEvent.evSaveAlert alertC6, PipeEvent.evSetCooldown "p",
     PipeEvent.evNotify alertC6] =
      [PipeEvent.evSaveAlert
         { alert_id := "alrt_x", patient_token := "p", risk := 9/10,
           top_factors := [], timestamp := "ts" },
       PipeEvent.evSetCooldown "p",
       PipeEvent.evNotify
         { alert_id := "alrt_x", patient_token := "p", risk := 9/10,
           top_factors := [], timestamp := "ts" }] :=
  (C6_pipeline_order cfgDefault ncNone oDummy ⟨false, false, false⟩ 0 (9/10) "p"
      "alrt_x" [] "ts" stEmpty true (some alertC6) stC6
      [PipeEvent.evSaveAlert alertC6, PipeEvent.evSetCooldown "p",
       PipeEvent.evNotify alertC6] score_phase_sample).1 rfl

end MLVoipAlert
